import Mathlib

/-!
A verification development for the py-prefork-server library.

The Python sources under `preforkserver/` are shallowly embedded below:

* `manager.py` — the supervisor: the `ManagerChild` bookkeeping record and the
  sizing controller `Manager._assess_state` (fork / kill decisions), together
  with a small step relation capturing which supervisor child-table states are
  reachable through the manager's main loop.
* `child.py` — the worker: `BaseChild._handle_connection`, `_loop`,
  `_handle_parent_event` and `_shutdown`, embedded as a trace-producing
  transition system.  Hook outcomes, accept results and control-channel
  messages are supplied by an explicit environment, and every externally
  visible effect (control messages, hook invocations, socket operations,
  process exit) is recorded as an `Action`.
* `poller.py` — the `Poll`, `Select` and `Kqueue` pollers (`Epoll` inherits
  `register`/`unregister` from `Poll`), with Python runtime errors
  (`TypeError`, `KeyError`, `NameError`) modelled by an `Except` result.

Python `int` values coming from configuration are modelled as `Int`;
counters that the code only ever increments from zero are `Nat`.
-/

namespace Prefork

/-! ### Event codes (preforkserver/ChildEvents.py; re-exported as
`preforkserver.events`, imported as `pfe` by manager.py and child.py) -/

namespace pfe

def WAITING : Nat := 1

def BUSY : Nat := 2

def EXITING_ERROR : Nat := 4

def EXITING_MAX : Nat := 8

def EXITING : Nat := EXITING_ERROR ||| EXITING_MAX

def CLOSE : Nat := 16

end pfe

/-! ### Supervisor model (manager.py) -/

/-- Embeds `ManagerChild` (manager.py).  The `pid` and the pipe object play no
role in any claim, so the record keeps only the two fields the sizing
controller reads: `current_state` (an event code) and `total_processed`. -/
structure MChild where
  current_state : Nat
  total_processed : Nat
deriving DecidableEq, Repr

/-- The subset of `Manager.__init__` configuration that `_assess_state` uses.
All four are Python ints (`Int`); `__init__` checks `min_servers ≤ max_servers`
and `min_spares ≤ max_spares` but nothing else. -/
structure MConfig where
  max_servers : Int
  min_servers : Int
  min_spares : Int
  max_spares : Int
deriving DecidableEq, Repr

/-- The loop `for ch in children: if ch.current_state & pfe.BUSY: total_busy += 1`
in `_assess_state`. -/
def countBusy (children : List MChild) : Nat :=
  (children.filter (fun c => c.current_state &&& pfe.BUSY != 0)).length

/-- A freshly forked child's record: `ManagerChild.__init__` sets
`current_state = pfe.WAITING` and `total_processed = 0`. -/
def newManagerChild : MChild :=
  { current_state := pfe.WAITING, total_processed := 0 }

/-- `k` consecutive `_start_child()` calls append `k` fresh records. -/
def spawn (k : Nat) : List MChild :=
  List.replicate k newManagerChild

/-- The under-spared branch's loop bound in `_assess_state`:
`to_fork = spares; if diff2max - spares < 0: to_fork = diff2max`. -/
def to_fork_count (cfg : MConfig) (n spares : Int) : Int :=
  let diff2max := cfg.max_servers - n
  if diff2max - spares < 0 then diff2max else spares

/-- Stable insertion keeping a list in descending `total_processed` order:
an element is placed before the first strictly smaller key, so earlier
elements with equal keys stay first. -/
def insert_desc (c : MChild) : List MChild → List MChild
  | [] => [c]
  | d :: rest =>
    if c.total_processed < d.total_processed then d :: insert_desc c rest
    else c :: d :: rest

/-- Embeds `sorted(children, cmp=lambda x, y: cmp(x.total_processed,
y.total_processed), reverse=True)` — a stable sort by `total_processed`,
most-used first. -/
def sort_desc : List MChild → List MChild
  | [] => []
  | c :: rest => insert_desc c (sort_desc rest)

/-- The over-spared branch of `_assess_state`: `to_kill = spares - max_spares`,
then `_kill_child` on the first `to_kill` of the sorted children.  The
surviving records are returned (Python keeps them in a dict whose iteration
order is arbitrary, so only the surviving multiset is meaningful). -/
def kill_spares (cfg : MConfig) (children : List MChild) (spares : Int) : List MChild :=
  (sort_desc children).drop (spares - cfg.max_spares).toNat

/-- Number of `_start_child()` calls made by one run of `Manager._assess_state`,
summing the under-spared branch (`xrange(to_fork)`, empty when `to_fork ≤ 0`)
and the under-minimum branch (`xrange(self.min_servers - num_children)`).
Both branches use `num_children` as computed on entry. -/
def assess_forked (cfg : MConfig) (children : List MChild) : Nat :=
  let n : Int := children.length
  let spares : Int := n - countBusy children
  (if spares < cfg.min_spares then (to_fork_count cfg n spares).toNat else 0)
    + (if n < cfg.min_servers then (cfg.min_servers - n).toNat else 0)

/-- The child table after one run of `Manager._assess_state`: the
`if spares < min_spares / elif spares > max_spares + min_servers` chain,
followed by the independent `if num_children < min_servers` check (which
reuses the stale `num_children` computed on entry). -/
def assess_children (cfg : MConfig) (children : List MChild) : List MChild :=
  let n : Int := children.length
  let spares : Int := n - countBusy children
  let after_sizing :=
    if spares < cfg.min_spares then
      children ++ spawn (to_fork_count cfg n spares).toNat
    else if spares > cfg.max_spares + cfg.min_servers then
      kill_spares cfg children spares
    else children
  if n < cfg.min_servers then
    after_sizing ++ spawn (cfg.min_servers - n).toNat
  else after_sizing

/-- One observable transition of the supervisor's child table inside
`Manager._loop`.  A poll batch may deliver several child events before the
next `_assess_state` run, so event steps compose freely:

* `child_exit` — `_handle_child_event` receives an `EXITING_*` message and
  deletes the record (children do exit: max-requests or hook errors);
* `child_msg` — `_handle_child_event` receives a `WAITING`/`BUSY` message and
  overwrites `current_state` and `total_processed`;
* `assess` — one run of `_assess_state`. -/
inductive MStep (cfg : MConfig) : List MChild → List MChild → Prop
  | child_exit (l1 l2 : List MChild) (c : MChild) :
      MStep cfg (l1 ++ c :: l2) (l1 ++ l2)
  | child_msg (l1 l2 : List MChild) (c : MChild) (ev tp : Nat)
      (h : ev = pfe.WAITING ∨ ev = pfe.BUSY) :
      MStep cfg (l1 ++ c :: l2)
        (l1 ++ { current_state := ev, total_processed := tp } :: l2)
  | assess (children : List MChild) :
      MStep cfg children (assess_children cfg children)

/-- Child tables reachable from `_init_children` (which forks
`range(min_servers)` children) through `Manager._loop`. -/
inductive Reachable (cfg : MConfig) : List MChild → Prop
  | init : Reachable cfg (spawn cfg.min_servers.toNat)
  | step {s t : List MChild} : Reachable cfg s → MStep cfg s t → Reachable cfg t

/-- Modelled from the spec's words (§4.F "Under-spared": fork
`min(spares_needed, max_workers - n)` where `spares_needed = min_spares -
spares`).  Stated only for comparison against `assess_forked`, which is the
source behavior. -/
def spec_underspared_forks (cfg : MConfig) (children : List MChild) : Int :=
  let n : Int := children.length
  let spares : Int := n - countBusy children
  min (cfg.min_spares - spares) (cfg.max_servers - n)

/-! ### Worker model (child.py)

Connections, hook results and control-channel input are supplied by an
explicit environment; client connections and peer addresses are opaque
identifiers (`Nat`). -/

/-- Payload of a control message: `_waiting`/`_busy` send the integer
`requests_handled`, `_error`/`_handled_max_requests` send a string. -/
inductive Payload
  | num (n : Nat)
  | str (s : String)
deriving DecidableEq, Repr

inductive Proto
  | tcp
  | udp
deriving DecidableEq, Repr

/-- Outcome of invoking a user hook that returns nothing: it either returns
normally or raises an exception whose `str()` is `msg`. -/
inductive HookRes
  | ok
  | exn (msg : String)
deriving DecidableEq, Repr

/-- Outcome of invoking the `allow_deny` hook. -/
inductive ADRes
  | ret (b : Bool)
  | exn (msg : String)
deriving DecidableEq, Repr

/-- Environment for one server-socket wakeup: the result of
`accept`/`recvfrom` (`none` models `socket.error`, the lost accept race) and
the behavior of each user hook that `_handle_connection` may invoke. -/
structure ConnEnv where
  accept : Option (Nat × Nat)
  post_accept : HookRes
  allow_deny : ADRes
  process_request : HookRes
  request_denied : HookRes
  post_process_request : HookRes
deriving DecidableEq, Repr

/-- The mutable fields of `BaseChild` that the loop reads or writes
(`protocol`, `requests_handled`, `conn`, `address`, `closed`, `error`). -/
structure ChildState where
  protocol : Proto
  requests_handled : Nat
  conn : Option Nat
  address : Option Nat
  closed : Bool
  error : Option String
deriving DecidableEq, Repr

/-- `BaseChild.__init__` state: counter zero, no connection, not closed. -/
def init_child (p : Proto) : ChildState :=
  { protocol := p, requests_handled := 0, conn := none, address := none,
    closed := false, error := none }

/-- Externally visible actions of the worker, in program order. -/
inductive Action
  | send (event : Nat) (payload : Payload)
  | hook_post_accept
  | hook_allow_deny
  | hook_process_request
  | hook_request_denied
  | hook_post_process_request
  | close_client
  | unregister_child_conn
  | unregister_server_socket
  | close_child_conn
  | close_server_socket
  | hook_shutdown
  | sleep_100ms
  | register_server_socket
  | register_child_conn
  | hook_user_init
deriving DecidableEq, Repr

/-- Actions performed by `BaseChild.__init__` after the fields are set:
register both pollables and call the user `initialize` hook.  No control
message is sent during construction. -/
def init_actions : List Action :=
  [Action.register_server_socket, Action.register_child_conn, Action.hook_user_init]

def isSendMsg : Action → Bool
  | Action.send _ _ => true
  | _ => false

/-- Result of `BaseChild._handle_connection`: either a normal return or an
exception (message `msg`) escaping to `_loop`, with the trace of actions
performed up to that point and the updated state. -/
inductive HCRes
  | normal (tr : List Action) (s : ChildState)
  | raised (tr : List Action) (s : ChildState) (msg : String)
deriving DecidableEq, Repr

def hc_trace : HCRes → List Action
  | HCRes.normal tr _ => tr
  | HCRes.raised tr _ _ => tr

/-- Embeds `BaseChild._handle_connection`.  A `socket.error` from
`accept`/`recvfrom` (`accept = none`) is caught and the method returns with
nothing done.  Otherwise `conn`/`address` are assigned, `_busy()` is sent,
and the hook pipeline runs: `post_accept`, `allow_deny`, then exactly one of
`process_request`/`request_denied`, then `_close_conn()` (which closes only a
TCP client socket — for UDP `self.conn` is the datagram payload, not a
socket), then `post_process_request`, then `_waiting()`.  Both `_busy()` and
`_waiting()` send the current `requests_handled`, which `_loop` has not yet
incremented. -/
def handle_connection (s : ChildState) (e : ConnEnv) : HCRes :=
  match e.accept with
  | none => HCRes.normal [] s
  | some ca =>
    let s1 := { s with conn := some ca.1, address := some ca.2 }
    let t := [Action.send pfe.BUSY (Payload.num s1.requests_handled),
              Action.hook_post_accept]
    match e.post_accept with
    | HookRes.exn m => HCRes.raised t s1 m
    | HookRes.ok =>
      let t := t ++ [Action.hook_allow_deny]
      match e.allow_deny with
      | ADRes.exn m => HCRes.raised t s1 m
      | ADRes.ret b =>
        let t := t ++ [if b then Action.hook_process_request
                       else Action.hook_request_denied]
        match (if b then e.process_request else e.request_denied) with
        | HookRes.exn m => HCRes.raised t s1 m
        | HookRes.ok =>
          let t := t ++ (if s1.protocol = Proto.tcp then [Action.close_client] else [])
              ++ [Action.hook_post_process_request]
          match e.post_process_request with
          | HookRes.exn m => HCRes.raised t s1 m
          | HookRes.ok =>
            HCRes.normal
              (t ++ [Action.send pfe.WAITING (Payload.num s1.requests_handled)]) s1

/-- Embeds `BaseChild._handle_parent_event`: `none` models `EOFError` on
`recv` (peer closed → `closed = True`); otherwise the `closed` flag is set
when the event has the `CLOSE` bit. -/
def handle_parent_event (s : ChildState) (m : Option (Nat × Payload)) : ChildState :=
  match m with
  | none => { s with closed := true }
  | some (ev, _) => if ev &&& pfe.CLOSE != 0 then { s with closed := true } else s

/-- The action sequence of `BaseChild._shutdown` before `os._exit`:
unregister both pollables, close both endpoints, run the user `shutdown`
hook, sleep 0.1 s. -/
def shutdown_actions : List Action :=
  [Action.unregister_child_conn, Action.unregister_server_socket,
   Action.close_child_conn, Action.close_server_socket,
   Action.hook_shutdown, Action.sleep_100ms]

/-- One item of a poll batch inside `_loop`: the server socket is ready, or
the control channel is ready with the given received value. -/
inductive PollItem
  | server (e : ConnEnv)
  | conn (m : Option (Nat × Payload))
deriving DecidableEq, Repr

/-- Result of one `while True` iteration of `_loop`: continue with a new
state, or `os._exit(status)` was reached.  `tr` is the iteration's trace. -/
inductive StepRes
  | cont (s : ChildState) (tr : List Action)
  | exited (status : Nat) (tr : List Action)
deriving DecidableEq, Repr

def res_prepend (t : List Action) : StepRes → StepRes
  | StepRes.cont s tr => StepRes.cont s (t ++ tr)
  | StepRes.exited st tr => StepRes.exited st (t ++ tr)

/-- The checks after the `for sock, e in events` loop of `_loop`: `closed`
triggers `_shutdown()` (status 0); otherwise
`0 < self._max_requests <= self.requests_handled` sends `EXITING_MAX` and
calls `_shutdown()` (status 0). -/
def after_items (mr : Int) (s : ChildState) : StepRes :=
  if s.closed then StepRes.exited 0 shutdown_actions
  else if 0 < mr ∧ mr ≤ (s.requests_handled : Int) then
    StepRes.exited 0
      (Action.send pfe.EXITING_MAX (Payload.str "") :: shutdown_actions)
  else StepRes.cont s []

/-- The `for sock, e in events` body of `_loop` followed by `after_items`.
A server wakeup runs `_handle_connection`; if it raises, `_error(e)` sends
`EXITING_ERROR` with the stringified exception and `_shutdown(1)` exits with
status 1.  On a *normal* return — including the lost-race early return —
`self.requests_handled += 1` runs.  A control-channel wakeup runs
`_handle_parent_event`. -/
def process_items (mr : Int) (s : ChildState) : List PollItem → StepRes
  | [] => after_items mr s
  | PollItem.server e :: rest =>
    match handle_connection s e with
    | HCRes.raised t _ m =>
      StepRes.exited 1
        (t ++ Action.send pfe.EXITING_ERROR (Payload.str m) :: shutdown_actions)
    | HCRes.normal t s1 =>
      res_prepend t
        (process_items mr { s1 with requests_handled := s1.requests_handled + 1 } rest)
  | PollItem.conn m :: rest => process_items mr (handle_parent_event s m) rest

/-- Result of running `_loop` over a finite list of poll batches (an empty
batch models a poll timeout or an interrupted system call, both of which
yield no events). -/
inductive RunRes
  | running (s : ChildState) (tr : List Action)
  | exited (status : Nat) (tr : List Action)
deriving DecidableEq, Repr

def run_loop (mr : Int) (s : ChildState) : List (List PollItem) → RunRes
  | [] => RunRes.running s []
  | b :: rest =>
    match process_items mr s b with
    | StepRes.exited st tr => RunRes.exited st tr
    | StepRes.cont s1 tr =>
      match run_loop mr s1 rest with
      | RunRes.running s2 tr2 => RunRes.running s2 (tr ++ tr2)
      | RunRes.exited st tr2 => RunRes.exited st (tr ++ tr2)

/-! ### Poller model (poller.py)

Sockets are identified with their file descriptors (`fileno` is the
identity), and the readiness reported by the OS is an explicit input.
Python runtime exceptions are modelled with `Except PyErr`. -/

inductive PyErr
  | typeError
  | keyError
  | nameError
deriving DecidableEq, Repr

/-- `select` module event-bit constants used by poller.py. -/
def POLLIN : Nat := 1

def POLLPRI : Nat := 2

def POLLOUT : Nat := 4

def POLLERR : Nat := 8

/-- State of a `Poll` instance: the fds registered with the underlying
`select.poll()` object, and the `_sock_map` dict (fd → socket; here the
socket is its fd). -/
structure PollState where
  os_registered : List Nat
  sock_map : List (Nat × Nat)
deriving DecidableEq, Repr

/-- `Poll.register`: `self._poll.register(sock, ev_mask)` (re-registering is
allowed and updates the mask) then `self._sock_map[sock.fileno()] = sock`. -/
def Poll_register (st : PollState) (sock : Nat) : PollState :=
  { os_registered :=
      if sock ∈ st.os_registered then st.os_registered
      else st.os_registered ++ [sock],
    sock_map := (st.sock_map.filter (fun p => p.1 != sock)) ++ [(sock, sock)] }

/-- `select.poll().unregister(fd)`: raises `KeyError` if the fd is not
registered, otherwise removes it. -/
def os_poll_unregister (regs : List Nat) (fd : Nat) : Except PyErr (List Nat) :=
  if fd ∈ regs then Except.ok (regs.filter (fun x => x != fd))
  else Except.error PyErr.keyError

/-- Python `del d[k]`: raises `KeyError` when the key is absent. -/
def dict_del (m : List (Nat × Nat)) (k : Nat) : Except PyErr (List (Nat × Nat)) :=
  if m.any (fun p => p.1 == k) then Except.ok (m.filter (fun p => p.1 != k))
  else Except.error PyErr.keyError

/-- Embeds `Poll.unregister` (inherited unchanged by `Epoll`):
`self._poll.unregister(sock)` then `del self._sock_map[sock.fileno()]`; both
raise `KeyError` for a socket that is not registered. -/
def Poll_unregister (st : PollState) (sock : Nat) : Except PyErr PollState := do
  let regs ← os_poll_unregister st.os_registered sock
  let m ← dict_del st.sock_map sock
  return { os_registered := regs, sock_map := m }

/-- The expression `self._poll(timeout=timeout)` in `Poll.poll`: `self._poll`
is the `select.poll()` instance, which is not callable, so evaluating the
call raises `TypeError` before any event is looked at.  (`Epoll.poll`
overrides this method and correctly calls `self._poll.poll(...)`.) -/
def poll_object_call (_osEvents : List (Nat × Nat)) :
    Except PyErr (List (Nat × Nat)) :=
  Except.error PyErr.typeError

/-- `self._sock_map[fd]` — `KeyError` when the fd is unknown. -/
def sock_map_get (m : List (Nat × Nat)) (fd : Nat) : Except PyErr Nat :=
  match m.find? (fun p => p.1 == fd) with
  | some p => Except.ok p.2
  | none => Except.error PyErr.keyError

/-- Embeds `Poll.poll`: iterate over `self._poll(timeout=timeout)` and map
each fd through `_sock_map`.  `osEvents` is what the OS *would* report. -/
def Poll_poll (st : PollState) (osEvents : List (Nat × Nat)) :
    Except PyErr (List (Nat × Nat)) := do
  let evs ← poll_object_call osEvents
  evs.foldlM
    (fun acc fe => do
      let sk ← sock_map_get st.sock_map fe.1
      return acc ++ [(sk, fe.2)])
    []

/-- State of a `Select` instance: the three interest sets. -/
structure SelectState where
  rlist : List Nat
  wlist : List Nat
  xlist : List Nat
deriving DecidableEq, Repr

/-- `Select.unregister`: `discard` the socket from each of the three sets;
tolerates a socket that is in none of them. -/
def Select_unregister (st : SelectState) (sock : Nat) : SelectState :=
  { rlist := st.rlist.filter (fun x => x != sock),
    wlist := st.wlist.filter (fun x => x != sock),
    xlist := st.xlist.filter (fun x => x != sock) }

/-- Embeds `Select.poll` faithfully, including the loop-variable slip: after
`for read in rlist: ret.append((read, POLLIN))`, the next two loops append
`(read, POLLOUT)` and `(read, POLLERR)` — reusing `read`, which at that point
is the *last ready reader* (or unbound, a `NameError`, when no reader was
ready).  `ready_r/w/x` are the lists `select.select` returned. -/
def Select_poll (ready_r ready_w ready_x : List Nat) :
    Except PyErr (List (Nat × Nat)) :=
  let ret1 := ready_r.map (fun r => (r, POLLIN))
  match ready_w, ready_x with
  | [], [] => Except.ok ret1
  | _, _ =>
    match ready_r.getLast? with
    | none => Except.error PyErr.nameError
    | some rd =>
      Except.ok (ret1 ++ ready_w.map (fun _ => (rd, POLLOUT))
        ++ ready_x.map (fun _ => (rd, POLLERR)))

/-- State of a `Kqueue` instance: the `_kev_table` (fd → kevent filter) and
`_sock_map` dicts. -/
structure KqueueState where
  kev_table : List (Nat × Nat)
  sock_map : List (Nat × Nat)
deriving DecidableEq, Repr

/-- Embeds `Kqueue.unregister`: `del self._kev_table[sock.fileno()]` then
`del self._sock_map[sock.fileno()]`; `del` raises `KeyError` when the fd is
not registered. -/
def Kqueue_unregister (st : KqueueState) (sock : Nat) : Except PyErr KqueueState := do
  let kt ← dict_del st.kev_table sock
  let m ← dict_del st.sock_map sock
  return { kev_table := kt, sock_map := m }

/-! ### Concrete instances used by counterexamples and witnesses -/

/-- The default `Manager` configuration: `max_servers=20`, `min_servers=5`,
`min_spare_servers=2`, `max_spare_servers=10`. -/
def cfgDefault : MConfig :=
  { max_servers := 20, min_servers := 5, min_spares := 2, max_spares := 10 }

/-- A child record that has reported `BUSY`. -/
def busyChild : MChild := { current_state := pfe.BUSY, total_processed := 0 }

/-- A snapshot of five children, all busy. -/
def allBusy5 : List MChild := List.replicate 5 busyChild

/-- A valid configuration (`min_servers ≤ max_servers`,
`min_spares ≤ max_spares`) under which the stale-`num_children` double fork
of `_assess_state` overshoots `max_servers`. -/
def cfgC4 : MConfig :=
  { max_servers := 5, min_servers := 5, min_spares := 4, max_spares := 4 }

/-- The child table produced by one `_assess_state` run from three waiting
children under `cfgC4`: the under-spared branch forks 2 (clamped to
`max_servers`), then the under-minimum branch forks `min_servers - 3 = 2`
more from the stale count — seven children in total. -/
def stC4 : List MChild := assess_children cfgC4 (spawn 3)

/-- A server wakeup whose `accept`/`recvfrom` raises `socket.error` (the lost
accept race); hooks are benign and are never reached. -/
def lost_race_env : ConnEnv :=
  { accept := none, post_accept := HookRes.ok, allow_deny := ADRes.ret true,
    process_request := HookRes.ok, request_denied := HookRes.ok,
    post_process_request := HookRes.ok }

/-- A server wakeup that accepts connection 42 from address 7 and runs all
hooks without error, `allow_deny` returning `True`. -/
def ok_env : ConnEnv :=
  { accept := some (42, 7), post_accept := HookRes.ok, allow_deny := ADRes.ret true,
    process_request := HookRes.ok, request_denied := HookRes.ok,
    post_process_request := HookRes.ok }

/-- A server wakeup whose `post_accept` hook raises an exception printing as
`"boom"`. -/
def raise_env : ConnEnv :=
  { accept := some (42, 7), post_accept := HookRes.exn "boom",
    allow_deny := ADRes.ret true, process_request := HookRes.ok,
    request_denied := HookRes.ok, post_process_request := HookRes.ok }

/-- A worker that has already handled one request. -/
def served_once : ChildState :=
  { init_child Proto.tcp with requests_handled := 1 }

/-- The trace of the first loop iteration of a fresh TCP worker whose first
wakeup is `ok_env`. -/
def c7_first_trace : List Action :=
  [Action.send pfe.BUSY (Payload.num 0), Action.hook_post_accept,
   Action.hook_allow_deny, Action.hook_process_request, Action.close_client,
   Action.hook_post_process_request, Action.send pfe.WAITING (Payload.num 0)]

/-! ## Theorems

Helper lemmas first, then one theorem per claim (with counterexamples and
witnesses where required). -/

theorem insert_desc_length (c : MChild) (l : List MChild) :
    (insert_desc c l).length = l.length + 1 := by
  induction l with
  | nil => rfl
  | cons d rest ih =>
    simp only [insert_desc]
    split <;> simp [ih]

theorem sort_desc_length (l : List MChild) :
    (sort_desc l).length = l.length := by
  induction l with
  | nil => rfl
  | cons c rest ih => simp [sort_desc, insert_desc_length, ih]

/-- Claim C1 (counterexample): with the default configuration and five busy
children the snapshot is under-spared (`spares = 0 < min_spares = 2`), the
spec formula `min(min_spares - spares, max_workers - n)` demands 2 forks, but
`_assess_state` forks none — its loop bound is `spares` itself, not the
deficit. -/
theorem c1_counterexample :
    ((allBusy5.length : Int) - countBusy allBusy5 < cfgDefault.min_spares)
    ∧ assess_forked cfgDefault allBusy5 = 0
    ∧ spec_underspared_forks cfgDefault allBusy5 = 2 := by
  refine ⟨by decide, by decide, by decide⟩

/-- Claim C1 (amended): for every snapshot with `spares < min_spares`, one
run of `_assess_state` forks exactly `min(spares, max_workers - n)` workers
(clamped at zero) in the under-spared branch, plus `min_servers - n` more
from the under-minimum branch when `n < min_servers`. -/
theorem c1_forks_amended (cfg : MConfig) (children : List MChild)
    (h : (children.length : Int) - countBusy children < cfg.min_spares) :
    assess_forked cfg children
      = (min ((children.length : Int) - countBusy children)
          (cfg.max_servers - children.length)).toNat
        + (if (children.length : Int) < cfg.min_servers
           then (cfg.min_servers - children.length).toNat else 0) := by
  simp only [assess_forked, to_fork_count]
  rw [if_pos h]
  congr 1
  split <;> omega

/-- Claim C1 (witness for the amended theorem): the default configuration
with five busy children. -/
theorem c1_witness :
    assess_forked cfgDefault allBusy5
      = (min ((allBusy5.length : Int) - countBusy allBusy5)
          (cfgDefault.max_servers - allBusy5.length)).toNat
        + (if (allBusy5.length : Int) < cfgDefault.min_servers
           then (cfgDefault.min_servers - allBusy5.length).toNat else 0) :=
  c1_forks_amended cfgDefault allBusy5 (by decide)

/-- Claim C10: a snapshot in which every child is busy (`spares = 0`) with
`min_servers ≤ n < max_servers` forks nothing: the under-spared branch
derives its loop bound from the current spare count, which is zero. -/
theorem c10_busy_pool_no_fork (cfg : MConfig) (children : List MChild)
    (hbusy : ∀ c ∈ children, c.current_state &&& pfe.BUSY != 0)
    (hmin : cfg.min_servers ≤ (children.length : Int))
    (hmax : (children.length : Int) < cfg.max_servers) :
    assess_forked cfg children = 0 := by
  have hcount : countBusy children = children.length := by
    unfold countBusy
    rw [List.filter_eq_self.mpr hbusy]
  simp only [assess_forked, to_fork_count, hcount]
  rw [if_neg (not_lt.mpr hmin)]
  split
  · split <;> omega
  · rfl

/-- Claim C10 (witness): default configuration, five busy children. -/
theorem c10_witness : assess_forked cfgDefault allBusy5 = 0 :=
  c10_busy_pool_no_fork cfgDefault allBusy5 (by decide) (by decide) (by decide)

/-- Claim C4 (counterexample): under `cfgC4` the seven-child table `stC4` is
reachable (five children are forked at startup, two exit, and the next
`_assess_state` run double-forks past `max_servers` because the
under-minimum branch reuses the stale entry count), it has at least
`min_servers` children, and after a further `_assess_state` run the table
still holds more than `max_servers` children. -/
theorem c4_counterexample :
    Reachable cfgC4 stC4
    ∧ cfgC4.min_servers ≤ (stC4.length : Int)
    ∧ cfgC4.max_servers < ((assess_children cfgC4 stC4).length : Int) := by
  refine ⟨?_, by decide, by decide⟩
  have r0 : Reachable cfgC4 (spawn cfgC4.min_servers.toNat) := Reachable.init
  rw [show spawn cfgC4.min_servers.toNat = spawn 4 ++ newManagerChild :: [] from rfl] at r0
  have r1 := r0.step (MStep.child_exit (spawn 4) [] newManagerChild)
  rw [List.append_nil,
    show spawn 4 = spawn 3 ++ newManagerChild :: [] from rfl] at r1
  have r2 := r1.step (MStep.child_exit (spawn 3) [] newManagerChild)
  rw [List.append_nil] at r2
  exact r2.step (MStep.assess (spawn 3))

/-- Claim C4 (amended): if `min_servers ≤ max_servers` and the snapshot has
between `min_servers` and `max_servers` children, one run of
`_assess_state` leaves at most `max_servers` children. -/
theorem c4_bounded_amended (cfg : MConfig) (children : List MChild)
    (_h1 : cfg.min_servers ≤ cfg.max_servers)
    (h2 : cfg.min_servers ≤ (children.length : Int))
    (h3 : (children.length : Int) ≤ cfg.max_servers) :
    ((assess_children cfg children).length : Int) ≤ cfg.max_servers := by
  simp only [assess_children]
  rw [if_neg (not_lt.mpr h2)]
  split
  · -- under-spared: children ++ spawn (to_fork_count ...).toNat
    rename_i hsp
    simp only [List.length_append, spawn, List.length_replicate, to_fork_count]
    push_cast
    split <;> omega
  · split
    · -- over-spared: a drop of the sorted list
      simp only [kill_spares]
      rw [List.length_drop, sort_desc_length]
      omega
    · exact h3

/-- Claim C4 (witness for the amended theorem): the default configuration
with five busy children. -/
theorem c4_witness :
    ((assess_children cfgDefault allBusy5).length : Int) ≤ cfgDefault.max_servers :=
  c4_bounded_amended cfgDefault allBusy5 (by decide) (by decide) (by decide)

/-- Claim C2 (code bug, evaluated at the failing input): with
`max_requests = 1`, a fresh worker whose single poll wakeup is a lost accept
race sends `EXITING_MAX` and exits with status 0 after servicing zero
requests — the only control message in the whole trace is `EXITING_MAX`, no
`BUSY` was ever sent — because `_loop` increments `requests_handled` even
when `_handle_connection` returned without accepting anything. -/
theorem c2_lost_race_exits_early :
    run_loop 1 (init_child Proto.tcp) [[PollItem.server lost_race_env]]
      = RunRes.exited 0
          (Action.send pfe.EXITING_MAX (Payload.str "") :: shutdown_actions)
    ∧ (Action.send pfe.EXITING_MAX (Payload.str "") :: shutdown_actions).filter
        isSendMsg
      = [Action.send pfe.EXITING_MAX (Payload.str "")] :=
  ⟨rfl, rfl⟩

/-- Claim C3 (code bug, evaluated at the failing input): on a lost accept
race the worker emits no control message, keeps `conn`, `address` and the
`closed` flag unchanged and keeps polling, but `requests_handled` goes from
0 to 1 even though nothing was accepted. -/
theorem c3_lost_race_increments_counter :
    process_items 0 (init_child Proto.tcp) [PollItem.server lost_race_env]
      = StepRes.cont { init_child Proto.tcp with requests_handled := 1 } []
    ∧ (init_child Proto.tcp).requests_handled = 0 :=
  ⟨rfl, rfl⟩

/-- Claim C5: for every accepted unit of work with all hooks returning
normally, `_handle_connection` performs, in this exact order: emit `BUSY`,
`post_accept`, `allow_deny`, then exactly one of `process_request` (when
`allow_deny` returned `True`) or `request_denied` (when it returned
`False`), then close the client connection (TCP only), then
`post_process_request`, then emit `WAITING`; `conn`/`address` are set to the
accepted connection. -/
theorem c5_hook_pipeline_order (s : ChildState) (e : ConnEnv) (c a : Nat)
    (b : Bool) (hacc : e.accept = some (c, a))
    (hpa : e.post_accept = HookRes.ok) (had : e.allow_deny = ADRes.ret b)
    (hpr : e.process_request = HookRes.ok) (hrd : e.request_denied = HookRes.ok)
    (hpp : e.post_process_request = HookRes.ok) :
    handle_connection s e
      = HCRes.normal
          ([Action.send pfe.BUSY (Payload.num s.requests_handled),
            Action.hook_post_accept, Action.hook_allow_deny,
            if b then Action.hook_process_request else Action.hook_request_denied]
            ++ (if s.protocol = Proto.tcp then [Action.close_client] else [])
            ++ [Action.hook_post_process_request,
                Action.send pfe.WAITING (Payload.num s.requests_handled)])
          { s with conn := some c, address := some a } := by
  simp only [handle_connection, hacc, hpa, had, hpp]
  cases b <;> simp [hpr, hrd]

/-- Claim C5 (witness): a fresh TCP worker accepting connection 42 from
address 7 with all hooks benign. -/
theorem c5_witness :
    handle_connection (init_child Proto.tcp) ok_env
      = HCRes.normal
          ([Action.send pfe.BUSY (Payload.num 0),
            Action.hook_post_accept, Action.hook_allow_deny,
            if true then Action.hook_process_request else Action.hook_request_denied]
            ++ (if (init_child Proto.tcp).protocol = Proto.tcp
                then [Action.close_client] else [])
            ++ [Action.hook_post_process_request,
                Action.send pfe.WAITING (Payload.num 0)])
          { init_child Proto.tcp with conn := some 42, address := some 7 } :=
  c5_hook_pipeline_order (init_child Proto.tcp) ok_env 42 7 true
    rfl rfl rfl rfl rfl rfl

/-- Claim C6: (1) when a user hook raises during request servicing the
worker sends `EXITING_ERROR` carrying the stringified cause and exits with
status 1; (2) a `CLOSE` from the parent exits with status 0; (3) reaching
the request cap sends `EXITING_MAX` and exits with status 0; and on each of
these exit paths the worker first unregisters both pollables, closes both
endpoints, runs the user `shutdown` hook and sleeps ≈100 ms before
`os._exit`, as listed by `shutdown_actions`. -/
theorem c6_exit_paths :
    (∀ (mr : Int) (s : ChildState) (e : ConnEnv) (t : List Action)
        (s1 : ChildState) (m : String) (rest : List PollItem),
        handle_connection s e = HCRes.raised t s1 m →
        process_items mr s (PollItem.server e :: rest)
          = StepRes.exited 1
              (t ++ Action.send pfe.EXITING_ERROR (Payload.str m)
                :: shutdown_actions))
    ∧ (∀ (mr : Int) (s : ChildState) (p : Payload),
        process_items mr s [PollItem.conn (some (pfe.CLOSE, p))]
          = StepRes.exited 0 shutdown_actions)
    ∧ (∀ (mr : Int) (s : ChildState),
        s.closed = false → 0 < mr → mr ≤ (s.requests_handled : Int) →
        process_items mr s []
          = StepRes.exited 0
              (Action.send pfe.EXITING_MAX (Payload.str "") :: shutdown_actions))
    ∧ shutdown_actions
        = [Action.unregister_child_conn, Action.unregister_server_socket,
           Action.close_child_conn, Action.close_server_socket,
           Action.hook_shutdown, Action.sleep_100ms] := by
  refine ⟨?_, ?_, ?_, rfl⟩
  · intro mr s e t s1 m rest h
    simp [process_items, h]
  · intro mr s p
    simp [process_items, handle_parent_event, after_items, pfe.CLOSE]
  · intro mr s hcl hmr hrh
    simp [process_items, after_items, hcl, hmr, hrh]

/-- Claim C6 (witness): the three exit paths at concrete inputs — a raising
`post_accept` hook, a `CLOSE` message, and a worker at its request cap. -/
theorem c6_witness :
    process_items 0 (init_child Proto.tcp) [PollItem.server raise_env]
      = StepRes.exited 1
          ([Action.send pfe.BUSY (Payload.num 0), Action.hook_post_accept]
            ++ Action.send pfe.EXITING_ERROR (Payload.str "boom")
              :: shutdown_actions)
    ∧ process_items 0 (init_child Proto.tcp)
        [PollItem.conn (some (pfe.CLOSE, Payload.str ""))]
      = StepRes.exited 0 shutdown_actions
    ∧ process_items 1 served_once []
      = StepRes.exited 0
          (Action.send pfe.EXITING_MAX (Payload.str "") :: shutdown_actions) :=
  ⟨c6_exit_paths.1 0 (init_child Proto.tcp) raise_env
      [Action.send pfe.BUSY (Payload.num 0), Action.hook_post_accept]
      { init_child Proto.tcp with conn := some 42, address := some 7 } "boom" [] rfl,
   c6_exit_paths.2.1 0 (init_child Proto.tcp) (Payload.str ""),
   c6_exit_paths.2.2.1 1 served_once rfl (by decide) (by decide)⟩

/-- Claim C7 (counterexample): a fresh TCP worker whose first wakeup is a
successful accept reaches `process_request` having sent exactly one control
message — `BUSY` — since construction: no `WAITING` message is ever sent on
the control channel before the first request is serviced (construction sends
nothing; the parent merely initializes its own record to `WAITING`). -/
theorem c7_counterexample :
    run_loop 0 (init_child Proto.tcp) [[PollItem.server ok_env]]
      = RunRes.running
          { protocol := Proto.tcp, requests_handled := 1, conn := some 42,
            address := some 7, closed := false, error := none }
          c7_first_trace
    ∧ ((init_actions ++ c7_first_trace).takeWhile
          (fun a => a != Action.hook_process_request)).filter isSendMsg
        = [Action.send pfe.BUSY (Payload.num 0)] :=
  ⟨rfl, rfl⟩

/-- Claim C7 (amended): a worker's initial state is `WAITING` only as the
parent's bookkeeping — `ManagerChild.__init__` records `WAITING` at fork
time; the worker itself sends nothing during construction, and whenever a
connection is accepted its first control message is `BUSY`. -/
theorem c7_initial_state_amended :
    newManagerChild.current_state = pfe.WAITING
    ∧ init_actions.filter isSendMsg = []
    ∧ ∀ (s : ChildState) (e : ConnEnv) (ca : Nat × Nat),
        e.accept = some ca →
        (hc_trace (handle_connection s e)).head?
          = some (Action.send pfe.BUSY (Payload.num s.requests_handled)) := by
  refine ⟨rfl, rfl, ?_⟩
  intro s e ca hacc
  obtain ⟨acc, pa, ad, pr, rd, pp⟩ := e
  cases hacc
  rcases pa with _ | m1 <;> rcases ad with (_ | _) | m2 <;>
    rcases pr with _ | m3 <;> rcases rd with _ | m4 <;>
    rcases pp with _ | m5 <;> rfl

/-- Claim C7 (witness for the amended theorem): a fresh TCP worker's first
message on accepting is `BUSY`. -/
theorem c7_witness :
    (hc_trace (handle_connection (init_child Proto.tcp) ok_env)).head?
      = some (Action.send pfe.BUSY (Payload.num 0)) :=
  c7_initial_state_amended.2.2 (init_child Proto.tcp) ok_env (42, 7) rfl

/-- Claim C8 (code bug, evaluated at the failing inputs): `Poll.poll` raises
`TypeError` on every call — it invokes the `select.poll()` object itself
instead of its `poll` method — even with socket 3 registered and ready; and
`Select.poll`, when reader 1 and writer 2 are both ready, pairs the
writability event with socket 1 (the stale loop variable `read`), not with
socket 2 which produced it. -/
theorem c8_poller_poll_bugs :
    Poll_poll (Poll_register { os_registered := [], sock_map := [] } 3)
        [(3, POLLIN)]
      = Except.error PyErr.typeError
    ∧ Select_poll [1] [2] [] = Except.ok [(1, POLLIN), (1, POLLOUT)]
    ∧ (1 : Nat) ≠ 2 :=
  ⟨rfl, rfl, by decide⟩

/-- Claim C9 (counterexample): `Poll.unregister` raises `KeyError` on a
socket that is not registered — both on a fresh poller and on the second of
two consecutive unregisters of the same socket. -/
theorem c9_counterexample :
    Poll_unregister { os_registered := [], sock_map := [] } 7
      = Except.error PyErr.keyError
    ∧ (Poll_unregister (Poll_register { os_registered := [], sock_map := [] } 7)
          7).bind (fun st => Poll_unregister st 7)
      = Except.error PyErr.keyError :=
  ⟨rfl, rfl⟩

/-- Claim C9 (amended): only the `Select` poller tolerates unregistering a
socket that is not registered (a no-op, and repeated unregister is
idempotent); `Poll` (and `Epoll`, which inherits its `unregister`) and
`Kqueue` raise `KeyError` for a socket that is not registered. -/
theorem c9_unregister_amended :
    (∀ (st : SelectState) (sock : Nat),
        sock ∉ st.rlist → sock ∉ st.wlist → sock ∉ st.xlist →
        Select_unregister st sock = st)
    ∧ (∀ (st : SelectState) (sock : Nat),
        Select_unregister (Select_unregister st sock) sock
          = Select_unregister st sock)
    ∧ (∀ (st : PollState) (sock : Nat), sock ∉ st.os_registered →
        Poll_unregister st sock = Except.error PyErr.keyError)
    ∧ (∀ (st : KqueueState) (sock : Nat),
        st.kev_table.all (fun p => p.1 != sock) →
        Kqueue_unregister st sock = Except.error PyErr.keyError) := by
  have hf : ∀ (l : List Nat) (sock : Nat), sock ∉ l →
      l.filter (fun x => x != sock) = l := by
    intro l sock hl
    apply List.filter_eq_self.mpr
    intro a ha
    simp only [bne_iff_ne, ne_eq]
    intro heq
    exact hl (heq ▸ ha)
  refine ⟨?_, ?_, ?_, ?_⟩
  · intro st sock h1 h2 h3
    obtain ⟨r, w, x⟩ := st
    simp only [Select_unregister]
    rw [hf r sock h1, hf w sock h2, hf x sock h3]
  · intro st sock
    obtain ⟨r, w, x⟩ := st
    simp [Select_unregister, List.filter_filter]
  · intro st sock h
    simp only [Poll_unregister, os_poll_unregister, if_neg h]
    rfl
  · intro st sock h
    have hany : st.kev_table.any (fun p => p.1 == sock) = false := by
      rw [List.any_eq_false]
      intro p hp
      have := List.all_eq_true.mp h p hp
      simpa using this
    simp only [Kqueue_unregister, dict_del, hany, Bool.false_eq_true, if_false]
    rfl

/-- Claim C9 (witness for the amended theorem): concrete instantiations of
the tolerant `Select` case and the raising `Poll` and `Kqueue` cases. -/
theorem c9_witness :
    Select_unregister { rlist := [1], wlist := [], xlist := [] } 2
      = { rlist := [1], wlist := [], xlist := [] }
    ∧ Poll_unregister { os_registered := [3], sock_map := [(3, 3)] } 4
      = Except.error PyErr.keyError
    ∧ Kqueue_unregister { kev_table := [(3, 1)], sock_map := [(3, 3)] } 4
      = Except.error PyErr.keyError :=
  ⟨c9_unregister_amended.1 { rlist := [1], wlist := [], xlist := [] } 2
      (by decide) (by decide) (by decide),
   c9_unregister_amended.2.2.1 { os_registered := [3], sock_map := [(3, 3)] } 4
      (by decide),
   c9_unregister_amended.2.2.2 { kev_table := [(3, 1)], sock_map := [(3, 3)] } 4
      (by decide)⟩

end Prefork

